import Mathlib

/-!
# Verification of the matchmaking bot's match state-machine engine

Shallow embedding of the match engine of the repository: the team-match
(2v2/3v3/4v4) ban/pick/result logic, the 5v5 tournament round logic, the
1v1 result logic, the stats-ledger penalty clamps, and the party invite
lifecycle.  Python dicts are embedded as association lists with
insertion-order update semantics; `discord.Member` values are embedded as
numeric user ids; channels, threads and message rendering are dropped as
external I/O.
-/

/-! ## Association-list embedding of Python dicts -/

/-- Lookup in an association list (embedding of `k in d` / `d[k]`). -/
def alookup {α : Type} (k : Nat) : List (Nat × α) → Option α
  | [] => none
  | (k', v) :: rest => if k' = k then some v else alookup k rest

/-- Python dict assignment `d[k] = v`: replace in place, else append. -/
def aupdate {α : Type} (k : Nat) (v : α) : List (Nat × α) → List (Nat × α)
  | [] => [(k, v)]
  | (k', v') :: rest => if k' = k then (k, v) :: rest else (k', v') :: aupdate k v rest

/-- Python dict deletion `del d[k]`. -/
def adelete {α : Type} (k : Nat) (l : List (Nat × α)) : List (Nat × α) :=
  l.filter (fun p => p.1 ≠ k)

/-- Python `d.values()`. -/
def avalues {α : Type} (l : List (Nat × α)) : List α :=
  l.map Prod.snd

/-- Python truthiness of an `Optional[str]` (`None` and `""` are falsy). -/
def truthy : Option String → Bool
  | none => false
  | some s => s ≠ ""

/-- Embedding of `character.lower().replace(" ", "")` used to normalize
character names before matching them against the fixed pools. -/
def normName (s : String) : String :=
  String.mk ((s.data.map Char.toLower).filter (fun c => c ≠ ' '))

/-! ## Game constants (part 2 / part 10) -/

def SURVIVORS : List String :=
  ["Noob", "Guest 1337", "Shedletsky", "Chance", "Two Time",
   "Veeronica", "Elliot", "007n7", "Dusekkar", "Builderman", "Taph"]

def KILLERS : List String :=
  ["Noli", "Guest 666", "John Doe", "Slasher",
   "1x1x1x1", "C00lkidd", "Nosferatu"]

/-- `TEAM_POINTS[mode] = (win, loss)`; `none` models a `KeyError`. -/
def TEAM_POINTS (mode : String) : Option (Int × Int) :=
  if mode = "2v2" then some (8, -7)
  else if mode = "3v3" then some (7, -7)
  else if mode = "4v4" then some (6, -6)
  else none

/-- `TEAM_BAN_LIMITS[mode]`; `none` models a `KeyError`. -/
def TEAM_BAN_LIMITS (mode : String) : Option Nat :=
  if mode = "2v2" then some 1
  else if mode = "3v3" then some 0
  else if mode = "4v4" then some 0
  else none

/-- The `total_rounds` table assigned in `TeamMatch.__init__`. -/
def TEAM_TOTAL_ROUNDS (mode : String) : Option Nat :=
  if mode = "2v2" then some 4
  else if mode = "3v3" then some 6
  else if mode = "4v4" then some 8
  else none

/-- Team size per mode (length of the team lists a `TeamMatch` is built from). -/
def team_size (mode : String) : Option Nat :=
  if mode = "2v2" then some 2
  else if mode = "3v3" then some 3
  else if mode = "4v4" then some 4
  else none

/-! ## TeamMatch (part 2) -/

/-- Mutable state of a `TeamMatch` (2v2/3v3/4v4).  `total_rounds` is the
value the constructor stores from `TEAM_TOTAL_ROUNDS`. -/
structure TeamMatch where
  mode : String
  current_phase : String
  current_round : Nat
  team_a_bans : List String
  team_b_bans : List String
  team_a_picks : List (Nat × String)
  team_b_picks : List (Nat × String)
  team_a_score : Nat
  team_b_score : Nat
  rounds_completed : Nat
  team_a_claimed : Option String
  team_b_claimed : Option String
  in_tiebreaker : Bool
  total_rounds : Nat
deriving DecidableEq, Repr

/-- `TeamMatch.get_round_pattern`: per-round role lists for (team_a, team_b).
Out-of-range rounds (a Python `IndexError`) return empty lists. -/
def get_round_pattern (mode : String) (round_num : Nat) : List String × List String :=
  if mode = "2v2" then
    (([
      (["killer", "survivor"], ["survivor", "survivor"]),
      (["survivor", "survivor"], ["killer", "survivor"]),
      (["survivor", "killer"], ["survivor", "survivor"]),
      (["survivor", "survivor"], ["survivor", "killer"])
    ] : List (List String × List String)).getD (round_num - 1) ([], []))
  else if mode = "3v3" then
    (([
      (["killer", "survivor", "survivor"], ["survivor", "survivor", "survivor"]),
      (["survivor", "survivor", "survivor"], ["killer", "survivor", "survivor"]),
      (["survivor", "killer", "survivor"], ["survivor", "survivor", "survivor"]),
      (["survivor", "survivor", "survivor"], ["survivor", "killer", "survivor"]),
      (["survivor", "survivor", "killer"], ["survivor", "survivor", "survivor"]),
      (["survivor", "survivor", "survivor"], ["survivor", "survivor", "killer"])
    ] : List (List String × List String)).getD (round_num - 1) ([], []))
  else
    (([
      (["killer", "survivor", "survivor", "survivor"], ["survivor", "survivor", "survivor", "survivor"]),
      (["survivor", "survivor", "survivor", "survivor"], ["killer", "survivor", "survivor", "survivor"]),
      (["survivor", "killer", "survivor", "survivor"], ["survivor", "survivor", "survivor", "survivor"]),
      (["survivor", "survivor", "survivor", "survivor"], ["survivor", "killer", "survivor", "survivor"]),
      (["survivor", "survivor", "killer", "survivor"], ["survivor", "survivor", "survivor", "survivor"]),
      (["survivor", "survivor", "survivor", "survivor"], ["survivor", "survivor", "killer", "survivor"]),
      (["survivor", "survivor", "survivor", "killer"], ["survivor", "survivor", "survivor", "survivor"]),
      (["survivor", "survivor", "survivor", "survivor"], ["survivor", "survivor", "survivor", "killer"])
    ] : List (List String × List String)).getD (round_num - 1) ([], []))

/-- `TeamMatch.is_pick_phase_complete`: every index of the current round's
pattern, on both teams, has a pick recorded. -/
def is_pick_phase_complete (m : TeamMatch) : Bool :=
  let pattern := get_round_pattern m.mode m.current_round
  (List.range pattern.1.length).all (fun i => (alookup i m.team_a_picks).isSome) &&
  (List.range pattern.2.length).all (fun i => (alookup i m.team_b_picks).isSome)

/-- `TeamMatch.reset_picks_for_next_round`: clear both pick dicts. -/
def reset_picks_for_next_round (m : TeamMatch) : TeamMatch :=
  { m with team_a_picks := [], team_b_picks := [] }

/-- `TeamMatch.check_for_tiebreaker`. -/
def check_for_tiebreaker (m : TeamMatch) : Bool :=
  m.team_a_score = m.team_b_score

/-- Number of rounds, among rounds `1..total`, in which `get_round_pattern`
assigns the killer role to player index `i` of the given team side
(`true` = team A). -/
def killer_round_count (mode : String) (total : Nat) (sideA : Bool) (i : Nat) : Nat :=
  ((List.range total).filter (fun r =>
    let pat := get_round_pattern mode (r + 1)
    (if sideA then pat.1 else pat.2).getD i "" = "killer")).length

/-- C6: total rounds are twice the team size and every player index on each
team is the killer in exactly one round of the pattern table. -/
theorem c6_rounds_and_killer_once :
    (∀ mode ∈ ["2v2", "3v3", "4v4"],
      ∀ n ∈ (team_size mode).toList,
        TEAM_TOTAL_ROUNDS mode = some (2 * n) ∧
        ∀ i < n, ∀ sideA : Bool,
          killer_round_count mode (2 * n) sideA i = 1) := by
  decide

/-! ## TeamGameLogic (part 6) -/

/-- Outcome of a team-match action.  `rejected` carries the error reason and
implies the match state is unchanged (the handler returns before mutating). -/
inductive TeamPickOutcome where
  | rejected (msg : String)
  | accepted (m : TeamMatch)
deriving DecidableEq, Repr

/-- `pattern[f"team_{team.lower()}"]`: the acting team's role list for the
current round. -/
def team_pattern (m : TeamMatch) (team : String) : List String :=
  if team = "A" then (get_round_pattern m.mode m.current_round).1
  else (get_round_pattern m.mode m.current_round).2

/-- `required_role = team_pattern[user_index]`. -/
def pick_role (m : TeamMatch) (team : String) (i : Nat) : String :=
  (team_pattern m team).getD i ""

/-- `valid_pool`: `KILLERS` for a killer slot, else `SURVIVORS`. -/
def pick_pool (role : String) : List String :=
  if role = "killer" then KILLERS else SURVIVORS

/-- The acting team's own pick dict. -/
def own_picks (m : TeamMatch) (team : String) : List (Nat × String) :=
  if team = "A" then m.team_a_picks else m.team_b_picks

/-- The pool scan matching the normalized input against pool entries. -/
def findChar (pool : List String) (ch : String) : Option String :=
  pool.find? (fun c => normName c = normName ch)

/-- `TeamMatch.add_pick`. -/
def add_pick (m : TeamMatch) (team : String) (i : Nat) (c : String) : TeamMatch :=
  if team = "A" then { m with team_a_picks := aupdate i c m.team_a_picks }
  else { m with team_b_picks := aupdate i c m.team_b_picks }

/-- `TeamGameLogic.handle_team_pick`, after the dispatcher has resolved the
acting user to their team letter and index within the team (the
`get_user_team` / enumerate lookups).  Mirrors the source's check order:
phase, role slot, duplicate-slot, pool membership (normalized), ban, and —
for survivor picks only — duplicate within the **acting player's own team**. -/
def handle_team_pick (m : TeamMatch) (team : String) (user_index : Nat)
    (character : String) : TeamPickOutcome :=
  if m.current_phase ≠ "pick" then .rejected "Not in pick phase!"
  else if user_index ≥ (team_pattern m team).length then
    .rejected "You don't have a role this round!"
  else if (alookup user_index (own_picks m team)).isSome then
    .rejected "You've already picked!"
  else
    match findChar (pick_pool (pick_role m team user_index)) character with
    | none => .rejected "Not a valid character for your role!"
    | some matched_char =>
      if matched_char ∈ m.team_a_bans ∨ matched_char ∈ m.team_b_bans then
        .rejected "Character is banned!"
      else if pick_role m team user_index = "survivor" ∧
              matched_char ∈ avalues (own_picks m team) then
        .rejected "Already picked by your team!"
      else
        let m' := add_pick m team user_index matched_char
        if is_pick_phase_complete m' then
          .accepted { m' with current_phase := "results" }
        else
          .accepted m'

/-- Outcome of `TeamGameLogic.handle_team_result`.  `rejected` implies the
state is unchanged; `finalized` means `finalize_team_match` is invoked and the
match deleted from the active registry. -/
inductive TeamResultOutcome where
  | rejected (msg : String)
  | waiting (m : TeamMatch)
  | mismatch (m : TeamMatch)
  | tiebreakerStarted (m : TeamMatch)
  | finalized (m : TeamMatch)
  | nextRound (m : TeamMatch)
deriving DecidableEq, Repr

/-- The both-sides-reported tail of `handle_team_result` (from the
`if match.team_a_claimed and match.team_b_claimed:` check onward). -/
def team_result_reconcile (m : TeamMatch) : TeamResultOutcome :=
  if truthy m.team_a_claimed ∧ truthy m.team_b_claimed then
    if ¬((m.team_a_claimed = some "win" ∧ m.team_b_claimed = some "loss") ∨
         (m.team_a_claimed = some "loss" ∧ m.team_b_claimed = some "win")) then
      .mismatch { m with team_a_claimed := none, team_b_claimed := none }
    else
      let m2 :=
        if m.team_a_claimed = some "win" then
          { m with team_a_score := m.team_a_score + 1 }
        else
          { m with team_b_score := m.team_b_score + 1 }
      let m3 := { m2 with rounds_completed := m2.rounds_completed + 1 }
      let match_over := m3.rounds_completed ≥ m3.total_rounds
      if match_over ∧ check_for_tiebreaker m3 then
        .tiebreakerStarted
          (reset_picks_for_next_round
            { m3 with in_tiebreaker := true, current_phase := "pick",
                      current_round := m3.total_rounds })
      else if match_over then
        .finalized m3
      else
        .nextRound
          { (reset_picks_for_next_round
              { m3 with current_phase := "pick",
                        current_round := m3.current_round + 1 }) with
            team_a_claimed := none, team_b_claimed := none }
  else
    .waiting m

/-- `TeamGameLogic.handle_team_result`, after the dispatcher has resolved the
acting user to their team letter (the `is_team_host` lookup). -/
def handle_team_result (m : TeamMatch) (team : String) (result : String) :
    TeamResultOutcome :=
  if m.current_phase ≠ "results" then .rejected "Complete the pick phase first!"
  else if team = "A" then
    if truthy m.team_a_claimed then .rejected "Your team already reported!"
    else team_result_reconcile { m with team_a_claimed := some result }
  else
    if truthy m.team_b_claimed then .rejected "Your team already reported!"
    else team_result_reconcile { m with team_b_claimed := some result }

/-! ## C1: tiebreaker entry and result claims -/

/-- State reached after a result report, whatever the outcome (identity on
rejection). -/
def result_state (m : TeamMatch) (team result : String) : TeamMatch :=
  match handle_team_result m team result with
  | .rejected _ => m
  | .waiting m' => m'
  | .mismatch m' => m'
  | .tiebreakerStarted m' => m'
  | .finalized m' => m'
  | .nextRound m' => m'

/-- State reached after a pick (identity on rejection). -/
def pick_state (m : TeamMatch) (team : String) (i : Nat) (c : String) : TeamMatch :=
  match handle_team_pick m team i c with
  | .rejected _ => m
  | .accepted m' => m'

/-- A 2v2 match in the results phase of round 4, score 2-1, with team A
having already claimed a loss: team B's win claim will tie it 2-2. -/
def c1_m0 : TeamMatch :=
  { mode := "2v2", current_phase := "results", current_round := 4,
    team_a_bans := ["Slasher"], team_b_bans := ["Two Time"],
    team_a_picks := [(0, "Noob"), (1, "Chance")],
    team_b_picks := [(0, "Elliot"), (1, "Noli")],
    team_a_score := 2, team_b_score := 1, rounds_completed := 3,
    team_a_claimed := some "loss", team_b_claimed := none,
    in_tiebreaker := false, total_rounds := 4 }

/-- The state entering the tiebreaker. -/
def c1_m1 : TeamMatch := result_state c1_m0 "B" "win"

/-- The tiebreaker round after all four round-4 picks, which moves the
phase to results. -/
def c1_m5 : TeamMatch :=
  pick_state (pick_state (pick_state (pick_state c1_m1 "A" 0 "Noob")
    "A" 1 "Chance") "B" 0 "Elliot") "B" 1 "Noli"

/-- C1: on entry to the tiebreaker the previous round's claims are NOT
cleared (`reset_picks_for_next_round` only clears picks), so when the
tiebreaker round reaches the results phase both sides still have a pending
claim and each side's first result claim of the tiebreaker round is
rejected — the tiebreaker round can never be reconciled. -/
theorem c1_tiebreaker_claims_stuck :
    handle_team_result c1_m0 "B" "win" = .tiebreakerStarted c1_m1 ∧
    c1_m1.in_tiebreaker = true ∧
    c1_m1.team_a_claimed = some "loss" ∧
    c1_m1.team_b_claimed = some "win" ∧
    c1_m5.current_phase = "results" ∧
    handle_team_result c1_m5 "A" "win" = .rejected "Your team already reported!" ∧
    handle_team_result c1_m5 "B" "loss" = .rejected "Your team already reported!" := by
  decide

/-! ## C2: duplicate-pick validation in team matches -/

/-- A 2v2 match in the pick phase of round 1 where team A's survivor slot
already picked `"Noob"`; team B has not picked yet. -/
def c2_m0 : TeamMatch :=
  { mode := "2v2", current_phase := "pick", current_round := 1,
    team_a_bans := [], team_b_bans := [],
    team_a_picks := [(1, "Noob")], team_b_picks := [],
    team_a_score := 0, team_b_score := 0, rounds_completed := 0,
    team_a_claimed := none, team_b_claimed := none,
    in_tiebreaker := false, total_rounds := 4 }

/-- C2 counterexample: team B player 0 picks `"Noob"` although team A has
already picked it this round, and the pick is accepted (the state changes) —
the claim's cross-team rejection does not happen. -/
theorem c2_cross_team_pick_accepted :
    handle_team_pick c2_m0 "B" 0 "Noob"
      = .accepted { c2_m0 with team_b_picks := [(0, "Noob")] } := by
  decide

/-- C2 (amended): a pick is accepted only if the character normalizes to a
member of the pool for the player's assigned role that is not banned and —
when the assigned role is survivor — not already picked by the player's
**own** team this round; and a survivor pick whose matched character is
already picked by the player's own team is rejected (leaving the state
unchanged).  Picks by the opposing team do not block. -/
theorem c2_pick_validation (m : TeamMatch) (team : String) (i : Nat)
    (ch : String) (m' : TeamMatch) :
    (handle_team_pick m team i ch = .accepted m' →
      (findChar (pick_pool (pick_role m team i)) ch).isSome = true ∧
      ∀ mc, findChar (pick_pool (pick_role m team i)) ch = some mc →
        mc ∉ m.team_a_bans ∧ mc ∉ m.team_b_bans ∧
        (pick_role m team i = "survivor" → mc ∉ avalues (own_picks m team))) ∧
    (∀ mc, m.current_phase = "pick" →
      i < (team_pattern m team).length →
      alookup i (own_picks m team) = none →
      findChar (pick_pool (pick_role m team i)) ch = some mc →
      mc ∉ m.team_a_bans → mc ∉ m.team_b_bans →
      pick_role m team i = "survivor" → mc ∈ avalues (own_picks m team) →
      handle_team_pick m team i ch = .rejected "Already picked by your team!") := by
  constructor
  · intro h
    unfold handle_team_pick at h
    split at h
    · exact absurd h (by simp)
    · split at h
      · exact absurd h (by simp)
      · split at h
        · exact absurd h (by simp)
        · split at h
          · exact absurd h (by simp)
          · rename_i mc hfind
            split at h
            · exact absurd h (by simp)
            · split at h
              · exact absurd h (by simp)
              · rename_i hnb hns
                refine ⟨by simp [hfind], ?_⟩
                intro mc' hmc'
                rw [hfind] at hmc'
                cases hmc'
                push_neg at hnb
                refine ⟨hnb.1, hnb.2, ?_⟩
                intro hrole hmem
                exact hns ⟨hrole, hmem⟩
  · intro mc hphase hlen hfresh hfind hba hbb hrole hmem
    unfold handle_team_pick
    rw [if_neg (by simp [hphase]), if_neg (by omega), if_neg (by simp [hfresh]),
      hfind]
    dsimp only
    rw [if_neg (by simp [hba, hbb]), if_pos ⟨hrole, hmem⟩]

/-- Witness for C2 (amended): with team B having picked `"Noob"` at slot 0,
team B player 1's (normalized) `"noob"` pick is rejected as an own-team
duplicate. -/
theorem c2_pick_validation_witness :
    handle_team_pick { c2_m0 with team_b_picks := [(0, "Noob")] } "B" 1 "noob"
      = .rejected "Already picked by your team!" :=
  (c2_pick_validation { c2_m0 with team_b_picks := [(0, "Noob")] } "B" 1 "noob"
    c2_m0).2 "Noob" (by decide) (by decide) (by decide) (by decide) (by decide)
    (by decide) (by decide) (by decide)

/-- Witness for C6 at mode 2v2, player index 0 of team A. -/
theorem c6_rounds_and_killer_once_witness :
    TEAM_TOTAL_ROUNDS "2v2" = some (2 * 2) ∧
    killer_round_count "2v2" (2 * 2) true 0 = 1 :=
  ⟨(c6_rounds_and_killer_once "2v2" (by decide) 2 (by decide)).1,
   (c6_rounds_and_killer_once "2v2" (by decide) 2 (by decide)).2 0 (by decide) true⟩

/-! ## Tournament5v5Match (part 10) -/

def MAPS : List String :=
  ["Glasshouses", "Pirate bay", "Brandonworks", "C00l Carnival",
   "Yorick's Resting Place", "Planet Voss", "Familiar Ruins",
   "Classic Battleground", "The Tempest", "Work At A Pizza Place"]

def TOURNAMENT_ROUNDS : Nat := 10
def TOURNAMENT_WIN_POINTS : Int := 10
def TOURNAMENT_LOSS_POINTS : Int := -10
def MAX_SURVIVOR_BANS : Nat := 2

/-- One entry of `Tournament5v5Match.history` (`save_round_history`).
Members are embedded as user ids, so `killer_player` and the player half of
`defender_picks` are ids rather than display names. -/
structure RoundData where
  round : Nat
  map : Option String
  attacking_team : String
  defending_team : String
  killer_player : Nat
  killer_character : Option String
  bans : List String
  defender_picks : List (Nat × String)
  team_a_points : Option Int
  team_b_points : Option Int
  winner : String
deriving DecidableEq, Repr

/-- Mutable state of a `Tournament5v5Match`.  Team rosters are id lists
(index 0 is the host). -/
structure T5Match where
  team_a : List Nat
  team_b : List Nat
  team_a_name : String
  team_b_name : String
  current_round : Nat
  current_phase : String
  selected_map : Option String
  selected_killer_player_index : Option Nat
  selected_killer_character : Option String
  banned_survivors : List String
  round_survivor_picks : List (Nat × String)
  team_a_score : Nat
  team_b_score : Nat
  rounds_completed : Nat
  team_a_claimed : Option Int
  team_b_claimed : Option Int
  match_complete : Bool
  history : List RoundData
deriving DecidableEq, Repr

/-- `get_attacking_team`: alternates by round parity, round 1 is team A. -/
def get_attacking_team (m : T5Match) : String :=
  if m.current_round % 2 = 1 then "A" else "B"

/-- `get_defending_team`. -/
def get_defending_team (m : T5Match) : String :=
  if get_attacking_team m = "A" then "B" else "A"

/-- `get_team_members`. -/
def t5_team_members (m : T5Match) (team : String) : List Nat :=
  if team = "A" then m.team_a else m.team_b

/-- `get_team_name`. -/
def t5_team_name (m : T5Match) (team : String) : String :=
  if team = "A" then m.team_a_name else m.team_b_name

/-- `reset_round_state`: clear per-round selections and return to the
map-select phase. -/
def reset_round_state (m : T5Match) : T5Match :=
  { m with selected_map := none, selected_killer_player_index := none,
           selected_killer_character := none, banned_survivors := [],
           round_survivor_picks := [], current_phase := "map_select" }

/-- `get_available_survivors_for_pick`. -/
def get_available_survivors_for_pick (m : T5Match) : List String :=
  SURVIVORS.filter (fun s =>
    s ∉ m.banned_survivors ∧ s ∉ avalues m.round_survivor_picks)

/-- `is_picks_complete`: the pick dict holds at least 5 entries. -/
def is_picks_complete (m : T5Match) : Bool :=
  m.round_survivor_picks.length ≥ 5

/-- `is_bans_complete`. -/
def is_bans_complete (m : T5Match) : Bool :=
  m.banned_survivors.length ≥ MAX_SURVIVOR_BANS

/-- The `round_data` record built by `save_round_history`. -/
def round_entry (m : T5Match) : RoundData :=
  let defending_team := get_defending_team m
  let defending_members := t5_team_members m defending_team
  let picks_formatted := (List.range 5).map (fun i =>
    (defending_members.getD i 0, (alookup i m.round_survivor_picks).getD "None"))
  let attacking_team := get_attacking_team m
  let killer_player :=
    (t5_team_members m attacking_team).getD
      (m.selected_killer_player_index.getD 0) 0
  let winner :=
    if m.team_a_claimed.getD 0 > m.team_b_claimed.getD 0 then m.team_a_name
    else if m.team_b_claimed.getD 0 > m.team_a_claimed.getD 0 then m.team_b_name
    else "Tie"
  { round := m.rounds_completed,
    map := m.selected_map,
    attacking_team := t5_team_name m attacking_team,
    defending_team := t5_team_name m defending_team,
    killer_player := killer_player,
    killer_character := m.selected_killer_character,
    bans := m.banned_survivors,
    defender_picks := picks_formatted,
    team_a_points := m.team_a_claimed,
    team_b_points := m.team_b_claimed,
    winner := winner }

/-- `save_round_history`: append the current round's data (including both
claimed scores) to the history.  Called before `rounds_completed` is
incremented and while both claims are still set. -/
def save_round_history (m : T5Match) : T5Match :=
  { m with history := m.history ++ [round_entry m] }

/-! ## Tournament5v5GameLogic pick handler (part 12) -/

/-- Outcome of `handle_tournament_pick`; `rejected` implies unchanged state. -/
inductive T5PickOutcome where
  | rejected (msg : String)
  | accepted (m : T5Match)
deriving DecidableEq, Repr

/-- `Tournament5v5GameLogic.handle_tournament_pick`, after the dispatcher has
resolved the acting user's team (`get_user_team`) and index
(`get_user_index_in_team`, `none` when not found).  All 5 defending players
pick; picks are matched against `SURVIVORS` verbatim (no normalization). -/
def handle_tournament_pick (m : T5Match) (user_team : Option String)
    (user_index : Option Nat) (survivor : String) : T5PickOutcome :=
  if m.current_phase ≠ "pick" then .rejected "Not in pick phase!"
  else if user_team ≠ some (get_defending_team m) then
    .rejected "Only defending team can pick!"
  else
    match user_index with
    | none => .rejected "Could not find your position!"
    | some idx =>
      if (alookup idx m.round_survivor_picks).isSome then
        .rejected "You already picked!"
      else if survivor ∉ SURVIVORS then
        .rejected "Invalid survivor!"
      else if survivor ∈ m.banned_survivors then
        .rejected "Survivor is banned!"
      else if survivor ∈ avalues m.round_survivor_picks then
        .rejected "Already picked by teammate!"
      else
        let m' := { m with round_survivor_picks :=
                      aupdate idx survivor m.round_survivor_picks }
        if is_picks_complete m' then
          .accepted { m' with current_phase := "results" }
        else
          .accepted m'

/-! ## Tournament5v5Results (part 13) -/

/-- Outcome of `handle_tournament_result`.  `finalized` means
`finalize_tournament` runs (stats committed, match deleted from the active
registry); `nextRound` means the round counter advanced and
`reset_round_state` ran. -/
inductive T5ResultOutcome where
  | rejected (msg : String)
  | waiting (m : T5Match)
  | mismatch (m : T5Match)
  | finalized (m : T5Match)
  | nextRound (m : T5Match)
deriving DecidableEq, Repr

/-- The both-hosts-reported tail of `handle_tournament_result` (from
`if match.team_a_claimed is not None and ...` onward). -/
def t5_result_reconcile (m : T5Match) : T5ResultOutcome :=
  if m.team_a_claimed.isSome ∧ m.team_b_claimed.isSome then
    if m.team_a_claimed.getD 0 + m.team_b_claimed.getD 0 ≠ 7 then
      .mismatch { m with team_a_claimed := none, team_b_claimed := none }
    else
      let m2 :=
        if m.team_a_claimed.getD 0 > m.team_b_claimed.getD 0 then
          { m with team_a_score := m.team_a_score + 1 }
        else if m.team_b_claimed.getD 0 > m.team_a_claimed.getD 0 then
          { m with team_b_score := m.team_b_score + 1 }
        else m
      let m3 := save_round_history m2
      let m4 := { m3 with rounds_completed := m3.rounds_completed + 1 }
      let m5 := { m4 with team_a_claimed := none, team_b_claimed := none }
      if m5.rounds_completed ≥ 10 ∨ m5.team_a_score ≥ 6 ∨ m5.team_b_score ≥ 6 then
        .finalized m5
      else
        .nextRound (reset_round_state { m5 with current_round := m5.current_round + 1 })
  else
    .waiting m

/-- `Tournament5v5Results.handle_tournament_result`, after the dispatcher has
resolved the acting host's team (`is_team_host`). -/
def handle_tournament_result (m : T5Match) (user_team : String)
    (team_score : Int) : T5ResultOutcome :=
  if m.current_phase ≠ "results" then .rejected "Complete the pick phase first!"
  else if team_score < 0 ∨ team_score > 7 then
    .rejected "Score must be between 0 and 7!"
  else if user_team = "A" then
    if m.team_a_claimed.isSome then .rejected "Your team already reported!"
    else t5_result_reconcile { m with team_a_claimed := some team_score }
  else
    if m.team_b_claimed.isSome then .rejected "Your team already reported!"
    else t5_result_reconcile { m with team_b_claimed := some team_score }

/-! ## C3: tournament pick completion -/

/-- A round-1 tournament pick phase where defending team B has 3 of its 5
picks recorded. -/
def c3_m : T5Match :=
  { team_a := [1, 2, 3, 4, 5], team_b := [6, 7, 8, 9, 10],
    team_a_name := "Alpha", team_b_name := "Beta",
    current_round := 1, current_phase := "pick",
    selected_map := some "Glasshouses", selected_killer_player_index := some 0,
    selected_killer_character := some "Noli",
    banned_survivors := ["Dusekkar", "Taph"],
    round_survivor_picks := [(0, "Noob"), (1, "Shedletsky"), (2, "Chance")],
    team_a_score := 0, team_b_score := 0, rounds_completed := 0,
    team_a_claimed := none, team_b_claimed := none, match_complete := false,
    history := [] }

/-- `c3_m` after defender 3's pick: four distinct valid picks are in. -/
def c3_m4 : T5Match :=
  { c3_m with round_survivor_picks :=
      [(0, "Noob"), (1, "Shedletsky"), (2, "Chance"), (3, "Two Time")] }

/-- `c3_m4` after defender 4's (fifth) pick, which moves the phase on. -/
def c3_m5 : T5Match :=
  { c3_m with
    round_survivor_picks :=
      [(0, "Noob"), (1, "Shedletsky"), (2, "Chance"), (3, "Two Time"),
       (4, "Veeronica")],
    current_phase := "results" }

/-- C3 counterexample: after the 4th defending player's pick all four of the
claim's "remaining 4 defending players" have picked distinct, non-banned
survivors, yet the phase does not advance to results — the code requires 5
picks (`is_picks_complete` is `len >= 5`). -/
theorem c3_four_picks_phase_stays :
    handle_tournament_pick c3_m (some "B") (some 3) "Two Time" = .accepted c3_m4 ∧
    c3_m4.round_survivor_picks.length = 4 ∧
    c3_m4.current_phase = "pick" := by
  decide

/-- C3 (amended): every accepted tournament pick comes from the defending
team during the pick phase, is a non-banned, not-already-picked member of
`SURVIVORS`, and the phase advances from pick to results exactly when the
5th defending pick lands. -/
theorem c3_defender_picks_five (m : T5Match) (t : Option String)
    (iOpt : Option Nat) (s : String) (m' : T5Match) :
    handle_tournament_pick m t iOpt s = .accepted m' →
      t = some (get_defending_team m) ∧
      m.current_phase = "pick" ∧
      s ∈ SURVIVORS ∧ s ∉ m.banned_survivors ∧
      s ∉ avalues m.round_survivor_picks ∧
      (m'.current_phase = "results" ↔ 5 ≤ m'.round_survivor_picks.length) ∧
      (m'.current_phase = "results" ∨ m'.current_phase = "pick") := by
  intro h
  unfold handle_tournament_pick at h
  split at h
  · exact absurd h (by simp)
  · split at h
    · exact absurd h (by simp)
    · rename_i hphase hteam
      split at h
      · exact absurd h (by simp)
      · rename_i idx
        split at h
        · exact absurd h (by simp)
        · split at h
          · exact absurd h (by simp)
          · split at h
            · exact absurd h (by simp)
            · split at h
              · exact absurd h (by simp)
              · rename_i hdup hmem hban hvals
                push_neg at hphase hteam
                refine ⟨hteam, hphase, by simpa using hmem, hban, hvals, ?_⟩
                dsimp only at h
                split at h
                · rename_i hcomp
                  injection h with h
                  subst h
                  simp only [is_picks_complete, ge_iff_le, decide_eq_true_eq] at hcomp
                  exact ⟨⟨fun _ => hcomp, fun _ => rfl⟩, Or.inl rfl⟩
                · rename_i hcomp
                  injection h with h
                  subst h
                  simp only [is_picks_complete, ge_iff_le, decide_eq_true_eq] at hcomp
                  refine ⟨⟨fun hres => absurd (hphase.symm.trans hres) (by decide),
                          fun hlen => absurd hlen hcomp⟩, Or.inr hphase⟩

/-- Witness for C3 (amended): the 5th defending pick is accepted and moves
the phase to results. -/
theorem c3_defender_picks_five_witness :
    (some "B" : Option String) = some (get_defending_team c3_m4) ∧
    c3_m4.current_phase = "pick" ∧
    "Veeronica" ∈ SURVIVORS ∧ "Veeronica" ∉ c3_m4.banned_survivors ∧
    "Veeronica" ∉ avalues c3_m4.round_survivor_picks ∧
    (c3_m5.current_phase = "results" ↔ 5 ≤ c3_m5.round_survivor_picks.length) ∧
    (c3_m5.current_phase = "results" ∨ c3_m5.current_phase = "pick") :=
  c3_defender_picks_five c3_m4 (some "B") (some 4) "Veeronica" c3_m5 (by decide)

/-! ## C4/C5/C9: tournament result reconciliation -/

theorem save_round_history_team_a_score (m : T5Match) :
    (save_round_history m).team_a_score = m.team_a_score := rfl

theorem save_round_history_team_b_score (m : T5Match) :
    (save_round_history m).team_b_score = m.team_b_score := rfl

theorem save_round_history_rounds_completed (m : T5Match) :
    (save_round_history m).rounds_completed = m.rounds_completed := rfl

theorem save_round_history_current_round (m : T5Match) :
    (save_round_history m).current_round = m.current_round := rfl

theorem save_round_history_history (m : T5Match) :
    (save_round_history m).history = m.history ++ [round_entry m] := rfl

/-- C4: when the second host's point claim arrives and the two claims do not
sum to 7, both claims are reset to empty and nothing else changes — the
round-win counters, `rounds_completed` and the history are those of the
pre-state, and both sides may resubmit (both claims are `None` again). -/
theorem c4_sum7_or_reset (m : T5Match) (team : String) (s a : Int)
    (h_phase : m.current_phase = "results")
    (hs0 : 0 ≤ s) (hs7 : s ≤ 7)
    (hother : (team = "A" ∧ m.team_a_claimed = none ∧ m.team_b_claimed = some a)
            ∨ (team ≠ "A" ∧ m.team_b_claimed = none ∧ m.team_a_claimed = some a))
    (hsum : a + s ≠ 7) :
    handle_tournament_result m team s
      = .mismatch { m with team_a_claimed := none, team_b_claimed := none } := by
  unfold handle_tournament_result
  rw [if_neg (by simp [h_phase]), if_neg (by omega)]
  rcases hother with ⟨hteam, hmine, hoth⟩ | ⟨hteam, hmine, hoth⟩
  · rw [if_pos hteam, hmine]
    simp only [Option.isSome_none, Bool.false_eq_true, if_false]
    unfold t5_result_reconcile
    rw [if_pos (by simp [hoth])]
    rw [if_pos (by simp [hoth]; omega)]
  · rw [if_neg hteam, hmine]
    simp only [Option.isSome_none, Bool.false_eq_true, if_false]
    unfold t5_result_reconcile
    rw [if_pos (by simp [hoth])]
    rw [if_pos (by simp [hoth]; omega)]

/-- A tournament round in the results phase with team B having claimed 3
points (team rosters and round selections as in round 1). -/
def c4_m : T5Match :=
  { team_a := [1, 2, 3, 4, 5], team_b := [6, 7, 8, 9, 10],
    team_a_name := "Alpha", team_b_name := "Beta",
    current_round := 1, current_phase := "results",
    selected_map := some "Glasshouses", selected_killer_player_index := some 0,
    selected_killer_character := some "Noli",
    banned_survivors := ["Dusekkar", "Taph"],
    round_survivor_picks :=
      [(0, "Noob"), (1, "Shedletsky"), (2, "Chance"), (3, "Two Time"),
       (4, "Veeronica")],
    team_a_score := 2, team_b_score := 1, rounds_completed := 3,
    team_a_claimed := none, team_b_claimed := some 3, match_complete := false,
    history := [] }

/-- Witness for C4: claims 3 and 3 do not sum to 7, so both are discarded. -/
theorem c4_sum7_or_reset_witness :
    handle_tournament_result c4_m "A" 3
      = .mismatch { c4_m with team_a_claimed := none, team_b_claimed := none } :=
  c4_sum7_or_reset c4_m "A" 3 3 rfl (by decide) (by decide)
    (Or.inl ⟨rfl, rfl, rfl⟩) (by decide)

/-- C5: starting from a live (non-finalizable) round state, a valid
reconciliation finalizes the match (stats commit and registry removal) iff
the completed-round count has just reached 10 or a side's round-win count
has just reached 6; otherwise the round counter increments and the next
round starts in the map-select phase. -/
theorem c5_finalize_exactly (m : T5Match) (team : String) (s a : Int)
    (h_phase : m.current_phase = "results")
    (hs0 : 0 ≤ s) (hs7 : s ≤ 7)
    (hother : (team = "A" ∧ m.team_a_claimed = none ∧ m.team_b_claimed = some a)
            ∨ (team ≠ "A" ∧ m.team_b_claimed = none ∧ m.team_a_claimed = some a))
    (hsum : a + s = 7)
    (hr : m.rounds_completed < 10)
    (hA : m.team_a_score < 6) (hB : m.team_b_score < 6) :
    (∃ m', handle_tournament_result m team s = .finalized m' ∧
       (m'.rounds_completed = 10 ∨ m'.team_a_score = 6 ∨ m'.team_b_score = 6)) ∨
    (∃ m', handle_tournament_result m team s = .nextRound m' ∧
       m'.rounds_completed < 10 ∧ m'.team_a_score < 6 ∧ m'.team_b_score < 6 ∧
       m'.current_round = m.current_round + 1 ∧
       m'.current_phase = "map_select") := by
  unfold handle_tournament_result
  rw [if_neg (by simp [h_phase]), if_neg (by omega)]
  rcases hother with ⟨hteam, hmine, hoth⟩ | ⟨hteam, hmine, hoth⟩
  · rw [if_pos hteam, hmine]
    simp only [Option.isSome_none, Bool.false_eq_true, if_false]
    unfold t5_result_reconcile
    rw [if_pos (by simp [hoth])]
    rw [if_neg (by simp [hoth]; omega)]
    dsimp only
    simp only [hoth]
    split
    · split
      · rename_i hgt hover
        left
        refine ⟨_, rfl, ?_⟩
        simp only [save_round_history_rounds_completed,
          save_round_history_team_a_score, save_round_history_team_b_score] at hover ⊢
        omega
      · rename_i hgt hover
        right
        refine ⟨_, rfl, ?_, ?_, ?_, ?_, rfl⟩ <;>
          simp only [reset_round_state, save_round_history_rounds_completed,
            save_round_history_team_a_score, save_round_history_team_b_score,
            save_round_history_current_round] at hover ⊢ <;> omega
    · split
      · split
        · rename_i hgt hlt hover
          left
          refine ⟨_, rfl, ?_⟩
          simp only [save_round_history_rounds_completed,
            save_round_history_team_a_score, save_round_history_team_b_score] at hover ⊢
          omega
        · rename_i hgt hlt hover
          right
          refine ⟨_, rfl, ?_, ?_, ?_, ?_, rfl⟩ <;>
            simp only [reset_round_state, save_round_history_rounds_completed,
              save_round_history_team_a_score, save_round_history_team_b_score,
              save_round_history_current_round] at hover ⊢ <;> omega
      · rename_i hgt hlt
        exfalso
        simp only [Option.getD_some] at hgt hlt
        omega
  · rw [if_neg hteam, hmine]
    simp only [Option.isSome_none, Bool.false_eq_true, if_false]
    unfold t5_result_reconcile
    rw [if_pos (by simp [hoth])]
    rw [if_neg (by simp [hoth]; omega)]
    dsimp only
    simp only [hoth]
    split
    · split
      · rename_i hgt hover
        left
        refine ⟨_, rfl, ?_⟩
        simp only [save_round_history_rounds_completed,
          save_round_history_team_a_score, save_round_history_team_b_score] at hover ⊢
        omega
      · rename_i hgt hover
        right
        refine ⟨_, rfl, ?_, ?_, ?_, ?_, rfl⟩ <;>
          simp only [reset_round_state, save_round_history_rounds_completed,
            save_round_history_team_a_score, save_round_history_team_b_score,
            save_round_history_current_round] at hover ⊢ <;> omega
    · split
      · split
        · rename_i hgt hlt hover
          left
          refine ⟨_, rfl, ?_⟩
          simp only [save_round_history_rounds_completed,
            save_round_history_team_a_score, save_round_history_team_b_score] at hover ⊢
          omega
        · rename_i hgt hlt hover
          right
          refine ⟨_, rfl, ?_, ?_, ?_, ?_, rfl⟩ <;>
            simp only [reset_round_state, save_round_history_rounds_completed,
              save_round_history_team_a_score, save_round_history_team_b_score,
              save_round_history_current_round] at hover ⊢ <;> omega
      · rename_i hgt hlt
        exfalso
        simp only [Option.getD_some] at hgt hlt
        omega

theorem round_entry_team_a_points (m : T5Match) :
    (round_entry m).team_a_points = m.team_a_claimed := rfl

theorem round_entry_team_b_points (m : T5Match) :
    (round_entry m).team_b_points = m.team_b_claimed := rfl

theorem last_append_single {α : Type} (l : List α) (x : α) :
    (l ++ [x]).getLast? = some x :=
  List.getLast?_concat l

/-- C9: a reconciliation that passes the sum-to-7 check never takes the tie
branch: exactly one team's round-win counter increments by 1, and the
recorded history entry stores two unequal point claims. -/
theorem c9_no_tie_branch (m : T5Match) (team : String) (s a : Int)
    (h_phase : m.current_phase = "results")
    (hs0 : 0 ≤ s) (hs7 : s ≤ 7)
    (hother : (team = "A" ∧ m.team_a_claimed = none ∧ m.team_b_claimed = some a)
            ∨ (team ≠ "A" ∧ m.team_b_claimed = none ∧ m.team_a_claimed = some a))
    (hsum : a + s = 7) :
    ∃ m', (handle_tournament_result m team s = .finalized m' ∨
           handle_tournament_result m team s = .nextRound m') ∧
      ((m'.team_a_score = m.team_a_score + 1 ∧ m'.team_b_score = m.team_b_score) ∨
       (m'.team_b_score = m.team_b_score + 1 ∧ m'.team_a_score = m.team_a_score)) ∧
      (∀ rd, m'.history.getLast? = some rd →
        rd.team_a_points ≠ rd.team_b_points) := by
  unfold handle_tournament_result
  rw [if_neg (by simp [h_phase]), if_neg (by omega)]
  rcases hother with ⟨hteam, hmine, hoth⟩ | ⟨hteam, hmine, hoth⟩
  · rw [if_pos hteam, hmine]
    simp only [Option.isSome_none, Bool.false_eq_true, if_false]
    unfold t5_result_reconcile
    rw [if_pos (by simp [hoth])]
    rw [if_neg (by simp [hoth]; omega)]
    dsimp only
    simp only [hoth]
    split
    · split
      · refine ⟨_, Or.inl rfl, Or.inl ⟨rfl, rfl⟩, ?_⟩
        intro rd hrd
        dsimp only [save_round_history] at hrd
        rw [last_append_single] at hrd
        injection hrd with hrd
        subst hrd
        simp only [round_entry_team_a_points, round_entry_team_b_points]
        simp only [ne_eq, Option.some.injEq]
        omega
      · refine ⟨_, Or.inr rfl, Or.inl ⟨rfl, rfl⟩, ?_⟩
        intro rd hrd
        dsimp only [reset_round_state, save_round_history] at hrd
        rw [last_append_single] at hrd
        injection hrd with hrd
        subst hrd
        simp only [round_entry_team_a_points, round_entry_team_b_points]
        simp only [ne_eq, Option.some.injEq]
        omega
    · split
      · split
        · refine ⟨_, Or.inl rfl, Or.inr ⟨rfl, rfl⟩, ?_⟩
          intro rd hrd
          dsimp only [save_round_history] at hrd
          rw [last_append_single] at hrd
          injection hrd with hrd
          subst hrd
          simp only [round_entry_team_a_points, round_entry_team_b_points]
          simp only [ne_eq, Option.some.injEq]
          omega
        · refine ⟨_, Or.inr rfl, Or.inr ⟨rfl, rfl⟩, ?_⟩
          intro rd hrd
          dsimp only [reset_round_state, save_round_history] at hrd
          rw [last_append_single] at hrd
          injection hrd with hrd
          subst hrd
          simp only [round_entry_team_a_points, round_entry_team_b_points]
          simp only [ne_eq, Option.some.injEq]
          omega
      · rename_i hgt hlt
        exfalso
        simp only [Option.getD_some] at hgt hlt
        omega
  · rw [if_neg hteam, hmine]
    simp only [Option.isSome_none, Bool.false_eq_true, if_false]
    unfold t5_result_reconcile
    rw [if_pos (by simp [hoth])]
    rw [if_neg (by simp [hoth]; omega)]
    dsimp only
    simp only [hoth]
    split
    · split
      · refine ⟨_, Or.inl rfl, Or.inl ⟨rfl, rfl⟩, ?_⟩
        intro rd hrd
        dsimp only [save_round_history] at hrd
        rw [last_append_single] at hrd
        injection hrd with hrd
        subst hrd
        simp only [round_entry_team_a_points, round_entry_team_b_points]
        simp only [ne_eq, Option.some.injEq]
        omega
      · refine ⟨_, Or.inr rfl, Or.inl ⟨rfl, rfl⟩, ?_⟩
        intro rd hrd
        dsimp only [reset_round_state, save_round_history] at hrd
        rw [last_append_single] at hrd
        injection hrd with hrd
        subst hrd
        simp only [round_entry_team_a_points, round_entry_team_b_points]
        simp only [ne_eq, Option.some.injEq]
        omega
    · split
      · split
        · refine ⟨_, Or.inl rfl, Or.inr ⟨rfl, rfl⟩, ?_⟩
          intro rd hrd
          dsimp only [save_round_history] at hrd
          rw [last_append_single] at hrd
          injection hrd with hrd
          subst hrd
          simp only [round_entry_team_a_points, round_entry_team_b_points]
          simp only [ne_eq, Option.some.injEq]
          omega
        · refine ⟨_, Or.inr rfl, Or.inr ⟨rfl, rfl⟩, ?_⟩
          intro rd hrd
          dsimp only [reset_round_state, save_round_history] at hrd
          rw [last_append_single] at hrd
          injection hrd with hrd
          subst hrd
          simp only [round_entry_team_a_points, round_entry_team_b_points]
          simp only [ne_eq, Option.some.injEq]
          omega
      · rename_i hgt hlt
        exfalso
        simp only [Option.getD_some] at hgt hlt
        omega

/-- Witness for C5: team B claimed 3, team A claims 4 (sum 7) at score 2-1
after 3 rounds — the match continues into round 2's map selection. -/
theorem c5_finalize_exactly_witness :
    (∃ m', handle_tournament_result c4_m "A" 4 = .finalized m' ∧
       (m'.rounds_completed = 10 ∨ m'.team_a_score = 6 ∨ m'.team_b_score = 6)) ∨
    (∃ m', handle_tournament_result c4_m "A" 4 = .nextRound m' ∧
       m'.rounds_completed < 10 ∧ m'.team_a_score < 6 ∧ m'.team_b_score < 6 ∧
       m'.current_round = c4_m.current_round + 1 ∧
       m'.current_phase = "map_select") :=
  c5_finalize_exactly c4_m "A" 4 3 rfl (by decide) (by decide)
    (Or.inl ⟨rfl, rfl, rfl⟩) (by decide) (by decide) (by decide) (by decide)

/-- Witness for C9 at the same concrete input. -/
theorem c9_no_tie_branch_witness :
    ∃ m', (handle_tournament_result c4_m "A" 4 = .finalized m' ∨
           handle_tournament_result c4_m "A" 4 = .nextRound m') ∧
      ((m'.team_a_score = c4_m.team_a_score + 1 ∧ m'.team_b_score = c4_m.team_b_score) ∨
       (m'.team_b_score = c4_m.team_b_score + 1 ∧ m'.team_a_score = c4_m.team_a_score)) ∧
      (∀ rd, m'.history.getLast? = some rd →
        rd.team_a_points ≠ rd.team_b_points) :=
  c9_no_tie_branch c4_m "A" 4 3 rfl (by decide) (by decide)
    (Or.inl ⟨rfl, rfl, rfl⟩) (by decide)

/-! ## Match1v1 (team_matchmaking_1v1) -/

def MAX_PICKS : Nat := 3
def MAX_BANS : Nat := 2
def WIN_POINTS : Int := 15
def LOSS_POINTS : Int := -15
def CANCEL_PENALTY : Int := -8

/-- Mutable state of a `Match1v1`. -/
structure Match1v1 where
  current_round : Nat
  current_phase : String
  player1_bans : List String
  player2_bans : List String
  player1_picks : List String
  player2_picks : List String
  player1_score : Nat
  player2_score : Nat
  rounds_completed : Nat
  player1_claimed : Option String
  player2_claimed : Option String
  match_complete : Bool
deriving DecidableEq, Repr

/-- Outcome of `Matchmaking1v1System.handle_result`.  `finalized` carries
whether player 1 is the recorded match winner (`winner = player1 if
player1_score > player2_score else player2`); it implies the stats commit,
`match_complete = True` and deletion from the active registry. -/
inductive Result1v1Outcome where
  | rejected (msg : String)
  | waiting (m : Match1v1)
  | mismatch (m : Match1v1)
  | roundComplete (m : Match1v1)
  | finalized (m : Match1v1) (winner_is_player1 : Bool)
deriving DecidableEq, Repr

/-- The both-players-claimed tail of `handle_result`. -/
def result_1v1_reconcile (m : Match1v1) : Result1v1Outcome :=
  if truthy m.player1_claimed ∧ truthy m.player2_claimed then
    if ¬((m.player1_claimed = some "win" ∧ m.player2_claimed = some "loss") ∨
         (m.player1_claimed = some "loss" ∧ m.player2_claimed = some "win")) then
      .mismatch { m with player1_claimed := none, player2_claimed := none }
    else
      let m2 :=
        if m.player1_claimed = some "win" then
          { m with player1_score := m.player1_score + 1 }
        else
          { m with player2_score := m.player2_score + 1 }
      let m3 := { m2 with rounds_completed := m2.rounds_completed + 1 }
      if m3.rounds_completed ≥ 3 then
        .finalized { m3 with match_complete := true }
          (decide (m3.player1_score > m3.player2_score))
      else
        .roundComplete { m3 with player1_claimed := none, player2_claimed := none }
  else
    .waiting m

/-- `Matchmaking1v1System.handle_result`, after the dispatcher has resolved
whether the acting user is player 1 or player 2. -/
def handle_result (m : Match1v1) (is_player1 : Bool) (result : String) :
    Result1v1Outcome :=
  if m.current_phase ≠ "results" then .rejected "Complete the pick phase first!"
  else if is_player1 then
    if truthy m.player1_claimed then .rejected "You already submitted a result!"
    else result_1v1_reconcile { m with player1_claimed := some result }
  else
    if truthy m.player2_claimed then .rejected "You already submitted a result!"
    else result_1v1_reconcile { m with player2_claimed := some result }

/-- Valid reconciliation, player 1 claimed the win. -/
theorem reconcile_1v1_p1win (m : Match1v1)
    (h1 : m.player1_claimed = some "win") (h2 : m.player2_claimed = some "loss") :
    result_1v1_reconcile m =
      (if m.rounds_completed + 1 ≥ 3 then
        .finalized
          { m with player1_score := m.player1_score + 1,
                   rounds_completed := m.rounds_completed + 1,
                   match_complete := true }
          (decide (m.player1_score + 1 > m.player2_score))
      else
        .roundComplete
          { m with player1_score := m.player1_score + 1,
                   rounds_completed := m.rounds_completed + 1,
                   player1_claimed := none, player2_claimed := none }) := by
  unfold result_1v1_reconcile
  rw [if_pos (by simp [h1, h2, truthy])]
  rw [if_neg (by simp [h1, h2])]
  rw [if_pos h1]

/-- Valid reconciliation, player 2 claimed the win. -/
theorem reconcile_1v1_p2win (m : Match1v1)
    (h1 : m.player1_claimed = some "loss") (h2 : m.player2_claimed = some "win") :
    result_1v1_reconcile m =
      (if m.rounds_completed + 1 ≥ 3 then
        .finalized
          { m with player2_score := m.player2_score + 1,
                   rounds_completed := m.rounds_completed + 1,
                   match_complete := true }
          (decide (m.player1_score > m.player2_score + 1))
      else
        .roundComplete
          { m with player2_score := m.player2_score + 1,
                   rounds_completed := m.rounds_completed + 1,
                   player1_claimed := none, player2_claimed := none }) := by
  unfold result_1v1_reconcile
  rw [if_pos (by simp [h1, h2, truthy])]
  rw [if_neg (by simp [h1, h2])]
  simp [h1]


/-- C7: with complementary claims, exactly the round-winner's counter
increments by 1, the match finalizes exactly when the 3rd round completes,
and the recorded match winner is the player whose score is strictly
higher.  `hinv` is the reachability invariant that the scores sum to the
completed-round count. -/
theorem c7_1v1_round_scoring (m : Match1v1) (is_p1 : Bool) (r s : String)
    (h_phase : m.current_phase = "results")
    (hinv : m.player1_score + m.player2_score = m.rounds_completed)
    (hr : m.rounds_completed < 3)
    (hother : (is_p1 = true ∧ m.player1_claimed = none ∧ m.player2_claimed = some s)
            ∨ (is_p1 = false ∧ m.player2_claimed = none ∧ m.player1_claimed = some s))
    (hcompl : (r = "win" ∧ s = "loss") ∨ (r = "loss" ∧ s = "win")) :
    ∃ m', (handle_result m is_p1 r = .roundComplete m' ∨
           ∃ w, handle_result m is_p1 r = .finalized m' w) ∧
      (((is_p1 = true ∧ r = "win") ∨ (is_p1 = false ∧ s = "win")) →
        m'.player1_score = m.player1_score + 1 ∧ m'.player2_score = m.player2_score) ∧
      (((is_p1 = true ∧ r = "loss") ∨ (is_p1 = false ∧ s = "loss")) →
        m'.player2_score = m.player2_score + 1 ∧ m'.player1_score = m.player1_score) ∧
      m'.rounds_completed = m.rounds_completed + 1 ∧
      ((∃ w, handle_result m is_p1 r = .finalized m' w) ↔ m'.rounds_completed = 3) ∧
      (∀ w, handle_result m is_p1 r = .finalized m' w →
        m'.match_complete = true ∧
        (w = true → m'.player1_score > m'.player2_score) ∧
        (w = false → m'.player2_score > m'.player1_score)) := by
  rcases hother with ⟨hp, h1, h2⟩ | ⟨hp, h1, h2⟩ <;>
    rcases hcompl with ⟨ha, hb⟩ | ⟨ha, hb⟩ <;> subst hp <;> subst ha <;> subst hb
  · -- player 1 submits "win", player 2 had claimed "loss"
    have hstep : handle_result m true "win"
        = result_1v1_reconcile { m with player1_claimed := some "win" } := by
      unfold handle_result
      rw [if_neg (by simp [h_phase]), if_pos rfl, if_neg (by simp [h1, truthy])]
    rw [hstep, reconcile_1v1_p1win { m with player1_claimed := some "win" } rfl h2]
    split
    · rename_i hge0
      have hge : m.rounds_completed + 1 ≥ 3 := hge0
      refine ⟨_, Or.inr ⟨_, rfl⟩, fun _ => ⟨rfl, rfl⟩, ?_, rfl, ?_, ?_⟩
      · rintro (⟨_, hh⟩ | ⟨hh, _⟩) <;> exact absurd hh (by decide)
      · exact ⟨fun _ => (show m.rounds_completed + 1 = 3 by omega), fun _ => ⟨_, rfl⟩⟩
      · intro w hw
        injection hw with hw1 hw2
        subst hw2
        refine ⟨rfl, fun hwt => ?_, fun hwf => ?_⟩
        · have hx : m.player1_score + 1 > m.player2_score := of_decide_eq_true hwt
          exact hx
        · have hx : ¬(m.player1_score + 1 > m.player2_score) := of_decide_eq_false hwf
          exact (show m.player2_score > m.player1_score + 1 by omega)
    · rename_i hlt0
      have hlt : ¬(m.rounds_completed + 1 ≥ 3) := hlt0
      refine ⟨_, Or.inl rfl, fun _ => ⟨rfl, rfl⟩, ?_, rfl, ?_, ?_⟩
      · rintro (⟨_, hh⟩ | ⟨hh, _⟩) <;> exact absurd hh (by decide)
      · constructor
        · rintro ⟨w, hw⟩; exact absurd hw (by simp)
        · intro h3
          have h3' : m.rounds_completed + 1 = 3 := h3
          omega
      · intro w hw; exact absurd hw (by simp)
  · -- player 1 submits "loss", player 2 had claimed "win"
    have hstep : handle_result m true "loss"
        = result_1v1_reconcile { m with player1_claimed := some "loss" } := by
      unfold handle_result
      rw [if_neg (by simp [h_phase]), if_pos rfl, if_neg (by simp [h1, truthy])]
    rw [hstep, reconcile_1v1_p2win { m with player1_claimed := some "loss" } rfl h2]
    split
    · rename_i hge0
      have hge : m.rounds_completed + 1 ≥ 3 := hge0
      refine ⟨_, Or.inr ⟨_, rfl⟩, ?_, fun _ => ⟨rfl, rfl⟩, rfl, ?_, ?_⟩
      · rintro (⟨_, hh⟩ | ⟨hh, _⟩) <;> exact absurd hh (by decide)
      · exact ⟨fun _ => (show m.rounds_completed + 1 = 3 by omega), fun _ => ⟨_, rfl⟩⟩
      · intro w hw
        injection hw with hw1 hw2
        subst hw2
        refine ⟨rfl, fun hwt => ?_, fun hwf => ?_⟩
        · have hx : m.player1_score > m.player2_score + 1 := of_decide_eq_true hwt
          exact hx
        · have hx : ¬(m.player1_score > m.player2_score + 1) := of_decide_eq_false hwf
          exact (show m.player2_score + 1 > m.player1_score by omega)
    · rename_i hlt0
      have hlt : ¬(m.rounds_completed + 1 ≥ 3) := hlt0
      refine ⟨_, Or.inl rfl, ?_, fun _ => ⟨rfl, rfl⟩, rfl, ?_, ?_⟩
      · rintro (⟨_, hh⟩ | ⟨hh, _⟩) <;> exact absurd hh (by decide)
      · constructor
        · rintro ⟨w, hw⟩; exact absurd hw (by simp)
        · intro h3
          have h3' : m.rounds_completed + 1 = 3 := h3
          omega
      · intro w hw; exact absurd hw (by simp)
  · -- player 2 submits "win", player 1 had claimed "loss"
    have hstep : handle_result m false "win"
        = result_1v1_reconcile { m with player2_claimed := some "win" } := by
      unfold handle_result
      rw [if_neg (by simp [h_phase]), if_neg (by simp), if_neg (by simp [h1, truthy])]
    rw [hstep, reconcile_1v1_p2win { m with player2_claimed := some "win" } h2 rfl]
    split
    · rename_i hge0
      have hge : m.rounds_completed + 1 ≥ 3 := hge0
      refine ⟨_, Or.inr ⟨_, rfl⟩, ?_, fun _ => ⟨rfl, rfl⟩, rfl, ?_, ?_⟩
      · rintro (⟨hh, _⟩ | ⟨_, hh⟩) <;> exact absurd hh (by decide)
      · exact ⟨fun _ => (show m.rounds_completed + 1 = 3 by omega), fun _ => ⟨_, rfl⟩⟩
      · intro w hw
        injection hw with hw1 hw2
        subst hw2
        refine ⟨rfl, fun hwt => ?_, fun hwf => ?_⟩
        · have hx : m.player1_score > m.player2_score + 1 := of_decide_eq_true hwt
          exact hx
        · have hx : ¬(m.player1_score > m.player2_score + 1) := of_decide_eq_false hwf
          exact (show m.player2_score + 1 > m.player1_score by omega)
    · rename_i hlt0
      have hlt : ¬(m.rounds_completed + 1 ≥ 3) := hlt0
      refine ⟨_, Or.inl rfl, ?_, fun _ => ⟨rfl, rfl⟩, rfl, ?_, ?_⟩
      · rintro (⟨hh, _⟩ | ⟨_, hh⟩) <;> exact absurd hh (by decide)
      · constructor
        · rintro ⟨w, hw⟩; exact absurd hw (by simp)
        · intro h3
          have h3' : m.rounds_completed + 1 = 3 := h3
          omega
      · intro w hw; exact absurd hw (by simp)
  · -- player 2 submits "loss", player 1 had claimed "win"
    have hstep : handle_result m false "loss"
        = result_1v1_reconcile { m with player2_claimed := some "loss" } := by
      unfold handle_result
      rw [if_neg (by simp [h_phase]), if_neg (by simp), if_neg (by simp [h1, truthy])]
    rw [hstep, reconcile_1v1_p1win { m with player2_claimed := some "loss" } h2 rfl]
    split
    · rename_i hge0
      have hge : m.rounds_completed + 1 ≥ 3 := hge0
      refine ⟨_, Or.inr ⟨_, rfl⟩, fun _ => ⟨rfl, rfl⟩, ?_, rfl, ?_, ?_⟩
      · rintro (⟨hh, _⟩ | ⟨_, hh⟩) <;> exact absurd hh (by decide)
      · exact ⟨fun _ => (show m.rounds_completed + 1 = 3 by omega), fun _ => ⟨_, rfl⟩⟩
      · intro w hw
        injection hw with hw1 hw2
        subst hw2
        refine ⟨rfl, fun hwt => ?_, fun hwf => ?_⟩
        · have hx : m.player1_score + 1 > m.player2_score := of_decide_eq_true hwt
          exact hx
        · have hx : ¬(m.player1_score + 1 > m.player2_score) := of_decide_eq_false hwf
          exact (show m.player2_score > m.player1_score + 1 by omega)
    · rename_i hlt0
      have hlt : ¬(m.rounds_completed + 1 ≥ 3) := hlt0
      refine ⟨_, Or.inl rfl, fun _ => ⟨rfl, rfl⟩, ?_, rfl, ?_, ?_⟩
      · rintro (⟨hh, _⟩ | ⟨_, hh⟩) <;> exact absurd hh (by decide)
      · constructor
        · rintro ⟨w, hw⟩; exact absurd hw (by simp)
        · intro h3
          have h3' : m.rounds_completed + 1 = 3 := h3
          omega
      · intro w hw; exact absurd hw (by simp)

/-- A 1v1 match at 1-1 after two rounds, player 2 having claimed a loss. -/
def c7_m : Match1v1 :=
  { current_round := 3, current_phase := "results",
    player1_bans := ["Noli"], player2_bans := ["Slasher"],
    player1_picks := ["John Doe"], player2_picks := ["Noob"],
    player1_score := 1, player2_score := 1, rounds_completed := 2,
    player1_claimed := none, player2_claimed := some "loss",
    match_complete := false }

/-- Witness for C7: player 1 reports the complementary win in round 3. -/
theorem c7_1v1_round_scoring_witness :
    ∃ m', (handle_result c7_m true "win" = .roundComplete m' ∨
           ∃ w, handle_result c7_m true "win" = .finalized m' w) ∧
      (((true = true ∧ "win" = "win") ∨ (true = false ∧ "loss" = "win")) →
        m'.player1_score = c7_m.player1_score + 1 ∧ m'.player2_score = c7_m.player2_score) ∧
      (((true = true ∧ "win" = "loss") ∨ (true = false ∧ "loss" = "loss")) →
        m'.player2_score = c7_m.player2_score + 1 ∧ m'.player1_score = c7_m.player1_score) ∧
      m'.rounds_completed = c7_m.rounds_completed + 1 ∧
      ((∃ w, handle_result c7_m true "win" = .finalized m' w) ↔ m'.rounds_completed = 3) ∧
      (∀ w, handle_result c7_m true "win" = .finalized m' w →
        m'.match_complete = true ∧
        (w = true → m'.player1_score > m'.player2_score) ∧
        (w = false → m'.player2_score > m'.player1_score)) :=
  c7_1v1_round_scoring c7_m true "win" "loss" rfl rfl (by decide)
    (Or.inl ⟨rfl, rfl, rfl⟩) (Or.inl ⟨rfl, rfl⟩)

/-! ## C8: stats-ledger penalty clamps -/

/-- One `ModeStats` record (part 7): points, wins, losses. -/
structure ModeStats where
  points : Int
  wins : Nat
  losses : Nat
deriving DecidableEq, Repr

/-- The 1v1 loser write site:
`loser_stats.points = max(0, loser_stats.points + LOSS_POINTS)` plus the
loss increment (`Matchmaking1v1System.handle_result`). -/
def apply_1v1_loss (st : ModeStats) : ModeStats :=
  { st with points := max 0 (st.points + LOSS_POINTS), losses := st.losses + 1 }

/-- The 1v1 cancel write site:
`canceller_stats.points = max(0, canceller_stats.points + CANCEL_PENALTY)`
(`Matchmaking1v1System.handle_cancel`). -/
def apply_1v1_cancel (st : ModeStats) : ModeStats :=
  { st with points := max 0 (st.points + CANCEL_PENALTY) }

/-- The team-mode loser write site:
`stats.points = max(0, stats.points + loss_points)` with
`loss_points = TEAM_POINTS[match.mode]["loss"]`
(`TeamGameLogic.finalize_team_match`). -/
def apply_team_loss (mode : String) (st : ModeStats) : Option ModeStats :=
  (TEAM_POINTS mode).map (fun wl =>
    { st with points := max 0 (st.points + wl.2), losses := st.losses + 1 })

/-- The tournament loser write site:
`stats.points = max(0, stats.points + TOURNAMENT_LOSS_POINTS)`
(`Tournament5v5Results.finalize_tournament`). -/
def apply_tournament_loss (st : ModeStats) : ModeStats :=
  { st with points := max 0 (st.points + TOURNAMENT_LOSS_POINTS),
            losses := st.losses + 1 }

/-- C8: every negative-delta write site (1v1 loss, 1v1 cancel penalty,
team-mode loss, tournament loss) clamps the stored points at 0. -/
theorem c8_penalties_clamped (st : ModeStats) (mode : String) (st' : ModeStats)
    (h_team : apply_team_loss mode st = some st') :
    0 ≤ (apply_1v1_loss st).points ∧
    0 ≤ (apply_1v1_cancel st).points ∧
    0 ≤ st'.points ∧
    0 ≤ (apply_tournament_loss st).points := by
  refine ⟨le_max_left 0 _, le_max_left 0 _, ?_, le_max_left 0 _⟩
  unfold apply_team_loss at h_team
  rcases hmode : TEAM_POINTS mode with _ | wl
  · rw [hmode] at h_team
    simp at h_team
  · rw [hmode] at h_team
    simp only [Option.map_some', Option.some.injEq] at h_team
    subst h_team
    exact le_max_left 0 _

/-- Witness for C8: a 3-point player loses a 2v2 match (delta -7) and ends
at 0 points, not -4. -/
theorem c8_penalties_clamped_witness :
    0 ≤ (apply_1v1_loss ⟨3, 0, 0⟩).points ∧
    0 ≤ (apply_1v1_cancel ⟨3, 0, 0⟩).points ∧
    0 ≤ (ModeStats.mk 0 0 1).points ∧
    0 ≤ (apply_tournament_loss ⟨3, 0, 0⟩).points :=
  c8_penalties_clamped ⟨3, 0, 0⟩ "2v2" ⟨0, 0, 1⟩ (by decide)

/-! ## PartySystem (part 1) -/

/-- A `Party`: host id, member ids (host first), pending invites
(user id → invite-time tick), name, max size (always 5). -/
structure Party where
  host : Nat
  members : List Nat
  pending_invites : List (Nat × Nat)
  max_size : Nat
  party_name : String
deriving DecidableEq, Repr

/-- `Party.get_size`. -/
def get_size (p : Party) : Nat :=
  p.members.length

/-- `Party.add_member`: reject when full or already a member. -/
def add_member (p : Party) (member : Nat) : Party × Bool :=
  if p.members.length ≥ p.max_size then (p, false)
  else if member ∈ p.members then (p, false)
  else ({ p with members := p.members ++ [member] }, true)

/-- The party registry: `parties` (host id → party) and `user_party_map`
(user id → host id). -/
structure PartySystem where
  parties : List (Nat × Party)
  user_party_map : List (Nat × Nat)
deriving DecidableEq, Repr

/-- `PartySystem.accept_invite`: returns the (success, message) pair and
the updated system state. -/
def accept_invite (sys : PartySystem) (user host : Nat) :
    (Bool × String) × PartySystem :=
  if (alookup user sys.user_party_map).isSome then
    ((false, "You're already in a party!"), sys)
  else
    match alookup host sys.parties with
    | none => ((false, "That party no longer exists!"), sys)
    | some party =>
      if (alookup user party.pending_invites).isNone then
        ((false, "You don't have a pending invite!"), sys)
      else if get_size party ≥ party.max_size then
        let party' := { party with
          pending_invites := adelete user party.pending_invites }
        ((false, "Party is full!"),
         { sys with parties := aupdate host party' sys.parties })
      else
        let party2 := (add_member party user).1
        let party' := { party2 with
          pending_invites := adelete user party2.pending_invites }
        ((true, "Joined!"),
         { sys with parties := aupdate host party' sys.parties,
                    user_party_map := aupdate user host sys.user_party_map })

theorem alookup_aupdate_self {α : Type} (k : Nat) (v : α) (l : List (Nat × α)) :
    alookup k (aupdate k v l) = some v := by
  induction l with
  | nil => simp [alookup, aupdate]
  | cons p rest ih =>
    by_cases h : p.1 = k
    · simp [aupdate, alookup, h]
    · simp [aupdate, alookup, h, ih]

theorem alookup_adelete_self {α : Type} (k : Nat) (l : List (Nat × α)) :
    alookup k (adelete k l) = none := by
  induction l with
  | nil => rfl
  | cons p rest ih =>
    by_cases h : p.1 = k
    · simp [adelete, alookup, h] at ih ⊢
      exact ih
    · simp only [adelete, List.filter] at ih ⊢
      rw [show (decide (p.1 ≠ k)) = true by simp [h]]
      simp only [alookup]
      rw [if_neg h]
      exact ih

/-- C10: accepting an invite to a full party fails — the user does not join
and their party mapping is unchanged — yet the pending invite is deleted
from the party's invite set. -/
theorem c10_full_party_consumes_invite (sys : PartySystem) (user host : Nat)
    (party : Party)
    (h_free : alookup user sys.user_party_map = none)
    (h_party : alookup host sys.parties = some party)
    (h_invited : (alookup user party.pending_invites).isSome)
    (h_full : get_size party ≥ party.max_size) :
    ∃ sys',
      accept_invite sys user host = ((false, "Party is full!"), sys') ∧
      sys'.user_party_map = sys.user_party_map ∧
      ∃ party', alookup host sys'.parties = some party' ∧
        party'.members = party.members ∧
        alookup user party'.pending_invites = none := by
  unfold accept_invite
  rw [h_free]
  simp only [Option.isSome_none, Bool.false_eq_true, if_false]
  rw [h_party]
  dsimp only
  have hni : (alookup user party.pending_invites).isNone = false := by
    cases halo : alookup user party.pending_invites with
    | none => rw [halo] at h_invited; simp at h_invited
    | some v => rfl
  rw [if_neg (by simp [hni]), if_pos h_full]
  refine ⟨_, rfl, rfl, _, alookup_aupdate_self host _ sys.parties, rfl, ?_⟩
  exact alookup_adelete_self user party.pending_invites

/-- A full 5-member party whose host (id 1) has a pending invite out to
user 99. -/
def c10_party : Party :=
  { host := 1, members := [1, 2, 3, 4, 5], pending_invites := [(99, 0)],
    max_size := 5, party_name := "Full Party" }

/-- The registry holding `c10_party`. -/
def c10_sys : PartySystem :=
  { parties := [(1, c10_party)],
    user_party_map := [(1, 1), (2, 1), (3, 1), (4, 1), (5, 1)] }

/-- Witness for C10: user 99 accepts the invite to the full party — the
accept fails and leaves the membership untouched, but the invite is gone. -/
theorem c10_full_party_consumes_invite_witness :
    ∃ sys', accept_invite c10_sys 99 1 = ((false, "Party is full!"), sys') ∧
      sys'.user_party_map = c10_sys.user_party_map ∧
      ∃ party', alookup 1 sys'.parties = some party' ∧
        party'.members = c10_party.members ∧
        alookup 99 party'.pending_invites = none :=
  c10_full_party_consumes_invite c10_sys 99 1 c10_party rfl rfl
    (by decide) (by decide)
